import Mathlib

/-!
Shallow embedding of the House_prediction repository (src/app.py and
src/test.py): the feature-vector encoding and the predict/serve pipeline
around the joblib model artifact Housing.pkl. Both files carry the same
core logic; it is transcribed here once per file where the claims compare
them, and once where the lines are shared verbatim.
-/

/-- House attributes as produced by the input widgets. The boolean-like
widgets yield the strings Yes/No and furnishing is one of three strings
(app.py 98-149, test.py 59-72). -/
structure HouseInput where
  area : Int
  bedrooms : Int
  bathrooms : Int
  stories : Int
  mainroad : String
  guestroom : String
  basement : String
  hotwaterheating : String
  airconditioning : String
  parking : Int
  prefarea : String
  furnishingstatus : String

/-- Domain of a Yes/No selectbox. -/
abbrev validBool (s : String) : Prop := s = "No" ∨ s = "Yes"

/-- Domain of the furnishing selectbox. -/
abbrev validFurnishing (s : String) : Prop :=
  s = "unfurnished" ∨ s = "semi-furnished" ∨ s = "furnished"

/-- Widget domains (spec section 3): area in [1000, 20000], bedrooms 1..8,
bathrooms 1..6, stories 1..4, parking 0..3, the six Yes/No fields and the
furnishing enum. -/
abbrev validInput (h : HouseInput) : Prop :=
  1000 ≤ h.area ∧ h.area ≤ 20000 ∧
  1 ≤ h.bedrooms ∧ h.bedrooms ≤ 8 ∧
  1 ≤ h.bathrooms ∧ h.bathrooms ≤ 6 ∧
  1 ≤ h.stories ∧ h.stories ≤ 4 ∧
  validBool h.mainroad ∧ validBool h.guestroom ∧ validBool h.basement ∧
  validBool h.hotwaterheating ∧ validBool h.airconditioning ∧
  0 ≤ h.parking ∧ h.parking ≤ 3 ∧
  validBool h.prefarea ∧ validFurnishing h.furnishingstatus

namespace App

/-- The per-field conversion used by app.py 183-188: 1 if the selectbox
string equals Yes else 0. -/
def yesVal (s : String) : Int := if s = "Yes" then 1 else 0

/-- The furnishing_map dict lookup of app.py 190-192: a key outside the dict
raises KeyError, modelled as none. -/
def furnishing_map (s : String) : Option Int :=
  if s = "unfurnished" then some 0
  else if s = "semi-furnished" then some 1
  else if s = "furnished" then some 2
  else none

/-- input_features (app.py 195-199): the 12-element vector in the fixed
order; none when the furnishing lookup raised KeyError. -/
def input_features (h : HouseInput) : Option (List Int) :=
  (furnishing_map h.furnishingstatus).map fun fv =>
    [h.area, h.bedrooms, h.bathrooms, h.stories, yesVal h.mainroad,
     yesVal h.guestroom, yesVal h.basement, yesVal h.hotwaterheating,
     yesVal h.airconditioning, h.parking, yesVal h.prefarea, fv]

/-- The single-row batch wrapping passed to model.predict (app.py 204). -/
def batch (h : HouseInput) : Option (List (List Int)) :=
  (input_features h).map fun v => [v]

end App

namespace Test

/-- The per-field conversion used by test.py 77-82: 1 if the selectbox
string equals Yes else 0. -/
def yesVal (s : String) : Int := if s = "Yes" then 1 else 0

/-- The furnishing_map dict lookup of test.py 84-85: a key outside the dict
raises KeyError, modelled as none. -/
def furnishing_map (s : String) : Option Int :=
  if s = "unfurnished" then some 0
  else if s = "semi-furnished" then some 1
  else if s = "furnished" then some 2
  else none

/-- input_features (test.py 88-92): the 12-element vector in the fixed
order; none when the furnishing lookup raised KeyError. -/
def input_features (h : HouseInput) : Option (List Int) :=
  (furnishing_map h.furnishingstatus).map fun fv =>
    [h.area, h.bedrooms, h.bathrooms, h.stories, yesVal h.mainroad,
     yesVal h.guestroom, yesVal h.basement, yesVal h.hotwaterheating,
     yesVal h.airconditioning, h.parking, yesVal h.prefarea, fv]

/-- The single-row batch wrapping passed to model.predict (test.py 96). -/
def batch (h : HouseInput) : Option (List (List Int)) :=
  (input_features h).map fun v => [v]

end Test

/-- The external regression artifact: exposes batch predict on a 2-D
array-like, returning a numeric sequence; a Python exception raised by
inference is an error value. -/
structure PriceModel where
  predict : List (List Int) → Except String (List Rat)

/-- Outcome of the joblib.load call on Housing.pkl: artifact present and
deserializable, file missing, or deserialization failure with some message. -/
inductive LoadOutcome where
  | success : PriceModel → LoadOutcome
  | fileNotFound : LoadOutcome
  | corruptFile : String → LoadOutcome

/-- load_model (app.py 71-78, identical in test.py 37-44): try joblib.load;
except FileNotFoundError shows an st.error banner and returns None; any other
exception (for example a corrupt pickle) is not caught and escapes the
function. The result is ok (optional model, displayed banner messages), or
error for an exception that propagates out of load_model. -/
def load_model : LoadOutcome → Except String (Option PriceModel × List String)
  | .success m => .ok (some m, [])
  | .fileNotFound => .ok (none, ["Model file Housing.pkl not found."])
  | .corruptFile e => .error e

/-- Decides whether a load result is the degraded-mode continuation: the run
goes on with no model and a visible banner. -/
def isDegradedContinue : Except String (Option PriceModel × List String) → Bool
  | .ok (none, _ :: _) => true
  | _ => false

/-- What the page renders for one predict request: the prediction box with the
formatted price, or the st.error box. -/
inductive Rendered where
  | predictionBox : String → Rendered
  | errorBox : String → Rendered
deriving DecidableEq

/-- Digit-grouping helper on a reversed digit list: a comma after every three
digits. -/
def groupChunks : List Char → List Char
  | a :: b :: c :: d :: rest => a :: b :: c :: ',' :: groupChunks (d :: rest)
  | l => l

/-- Thousands separators, as produced by the comma flag of the Python format
spec. -/
def commaGroup (n : Nat) : String :=
  String.mk (groupChunks (toString n).data.reverse).reverse

/-- Exactly two fraction digits, zero padded on the left. -/
def twoDigits (f : Nat) : String :=
  (if f < 10 then "0" else "") ++ toString f

/-- The price in cents, rounded to nearest: the floor of 100q + 1/2,
computed on the reduced fraction as (200 num + den) div (2 den). Python
rounds the nearest float tie to even; no claim here depends on a tie. -/
def roundCents (q : Rat) : Int :=
  Int.ediv (q.num * 200 + (q.den : Int)) ((q.den : Int) * 2)

/-- The currency rendering of app.py 210 and test.py 102: dollar sign, then
the value with thousands separators and exactly two decimals. -/
def formatCurrency (q : Rat) : String :=
  "$" ++ (if roundCents q < 0 then "-" else "") ++
    commaGroup ((roundCents q).natAbs / 100) ++ "." ++
    twoDigits ((roundCents q).natAbs % 100)

/-- Rendering of one guarded inference outcome, the body of the try block
around model.predict([input_features])[0] and its except handler
(app.py 202-216, test.py 95-107): an inference exception is caught and
shown via st.error; an empty predict result makes the [0] index raise,
also caught; otherwise the first element is shown formatted. -/
def render_result : Except String (List Rat) → Rendered
  | .error e => .errorBox ("Error making prediction: " ++ e)
  | .ok [] => .errorBox "Error making prediction: index 0 is out of bounds"
  | .ok (p :: _) => .predictionBox (formatCurrency p)

/-- Dispatch on the loaded model inside the same try block: with a model the
inference runs once and its outcome is rendered; with None the attribute
access raises before any inference and the handler shows the error. -/
def run_predict (model : Option PriceModel) (feats : List Int) : Rendered × Nat :=
  match model with
  | none =>
    (.errorBox "Error making prediction: NoneType object has no attribute predict", 0)
  | some m => (render_result (m.predict [feats]), 1)

/-- One predict interaction of app.py: the encoding (app.py 183-199, computed
before the button check and outside any try) followed by the guarded predict
(app.py 201-216). A KeyError from the furnishing lookup escapes uncaught,
modelled as error; everything inside the try yields a rendered outcome. -/
def App.handle_click (model : Option PriceModel) (h : HouseInput) :
    Except String (Rendered × Nat) :=
  match App.input_features h with
  | none => .error ("KeyError: " ++ h.furnishingstatus)
  | some feats => .ok (run_predict model feats)

/-- One predict interaction of test.py: the encoding (test.py 77-92, inside
the button branch but before the try) followed by the guarded predict
(test.py 95-107). A KeyError from the furnishing lookup escapes uncaught. -/
def Test.handle_click (model : Option PriceModel) (h : HouseInput) :
    Except String (Rendered × Nat) :=
  match Test.input_features h with
  | none => .error ("KeyError: " ++ h.furnishingstatus)
  | some feats => .ok (run_predict model feats)

/-- A stub artifact whose batch predict returns the fixed value v for any
input. -/
def stubModel (v : Rat) : PriceModel := ⟨fun _ => .ok [v]⟩

/-- An artifact whose inference raises, for example on a shape mismatch. -/
def failModel : PriceModel := ⟨fun _ => .error "ValueError: shape mismatch"⟩

/-- The worked example input of spec section 8. -/
def exInput : HouseInput :=
  ⟨7000, 4, 3, 3, "Yes", "Yes", "Yes", "Yes", "Yes", 2, "Yes", "furnished"⟩

/-- A valid input at the domain edge area = 1000. -/
def edgeLow : HouseInput :=
  ⟨1000, 1, 1, 1, "No", "No", "No", "No", "No", 0, "No", "unfurnished"⟩

/-- A valid input at the domain edge area = 20000. -/
def edgeHigh : HouseInput :=
  ⟨20000, 8, 6, 4, "Yes", "No", "Yes", "No", "Yes", 3, "Yes", "semi-furnished"⟩

/-- An input whose furnishing string is outside the dict keys. -/
def badFurnishInput : HouseInput :=
  ⟨7000, 4, 3, 3, "Yes", "Yes", "Yes", "Yes", "Yes", 2, "Yes", "luxury"⟩

/-- Helper: a valid input has a valid furnishing string. -/
theorem validInput_furnishing {h : HouseInput} (hv : validInput h) :
    validFurnishing h.furnishingstatus := by
  obtain ⟨-, -, -, -, -, -, -, -, -, -, -, -, -, -, -, -, hf⟩ := hv
  exact hf

/-- Helper: on the three dict keys the furnishing lookup succeeds with an
ordinal in 0..2. -/
theorem furnishing_map_of_valid {t : String} (ht : validFurnishing t) :
    ∃ fv, App.furnishing_map t = some fv ∧ (fv = 0 ∨ fv = 1 ∨ fv = 2) := by
  rcases ht with h | h | h <;> subst h
  · exact ⟨0, by decide, Or.inl rfl⟩
  · exact ⟨1, by decide, Or.inr (Or.inl rfl)⟩
  · exact ⟨2, by decide, Or.inr (Or.inr rfl)⟩

/-- Helper: twoDigits of a value below 100 has length two and only digit
characters. -/
theorem twoDigits_len_all : ∀ f : Nat, f < 100 →
    (twoDigits f).length = 2 ∧ (twoDigits f).data.all Char.isDigit = true := by
  decide

/-- Helper: every formatCurrency output ends in a point followed by exactly
two digit characters. -/
theorem formatCurrency_two_decimals (q : Rat) :
    ∃ s d, formatCurrency q = s ++ "." ++ d ∧ d.length = 2 ∧
      d.data.all Char.isDigit = true := by
  refine ⟨"$" ++ (if roundCents q < 0 then "-" else "") ++
    commaGroup ((roundCents q).natAbs / 100),
    twoDigits ((roundCents q).natAbs % 100), rfl, ?_, ?_⟩
  · exact (twoDigits_len_all _ (Nat.mod_lt _ (by norm_num))).1
  · exact (twoDigits_len_all _ (Nat.mod_lt _ (by norm_num))).2

/-- Claim C1: for every valid HouseFeatures input, the encoder produces
exactly 12 numeric values in the fixed order area, bedrooms, bathrooms,
stories, mainroad, guestroom, basement, hotwaterheating, airconditioning,
parking, prefarea, furnishingstatus, including at the domain edges
area = 1000 and area = 20000. -/
theorem c1_encode_twelve (h : HouseInput) (hv : validInput h) :
    ∃ v fv, App.furnishing_map h.furnishingstatus = some fv ∧
      App.input_features h = some v ∧ v.length = 12 ∧
      v = [h.area, h.bedrooms, h.bathrooms, h.stories, App.yesVal h.mainroad,
           App.yesVal h.guestroom, App.yesVal h.basement,
           App.yesVal h.hotwaterheating, App.yesVal h.airconditioning,
           h.parking, App.yesVal h.prefarea, fv] := by
  obtain ⟨fv, hfv, -⟩ := furnishing_map_of_valid (validInput_furnishing hv)
  refine ⟨[h.area, h.bedrooms, h.bathrooms, h.stories, App.yesVal h.mainroad,
           App.yesVal h.guestroom, App.yesVal h.basement,
           App.yesVal h.hotwaterheating, App.yesVal h.airconditioning,
           h.parking, App.yesVal h.prefarea, fv], fv, hfv, ?_, rfl, rfl⟩
  simp [App.input_features, hfv]

/-- Witness for C1 at both area domain edges. -/
theorem c1_encode_twelve_witness :
    (validInput edgeLow ∧
      ∃ v fv, App.furnishing_map edgeLow.furnishingstatus = some fv ∧
        App.input_features edgeLow = some v ∧ v.length = 12 ∧
        v = [edgeLow.area, edgeLow.bedrooms, edgeLow.bathrooms, edgeLow.stories,
             App.yesVal edgeLow.mainroad, App.yesVal edgeLow.guestroom,
             App.yesVal edgeLow.basement, App.yesVal edgeLow.hotwaterheating,
             App.yesVal edgeLow.airconditioning, edgeLow.parking,
             App.yesVal edgeLow.prefarea, fv]) ∧
    (validInput edgeHigh ∧
      ∃ v fv, App.furnishing_map edgeHigh.furnishingstatus = some fv ∧
        App.input_features edgeHigh = some v ∧ v.length = 12 ∧
        v = [edgeHigh.area, edgeHigh.bedrooms, edgeHigh.bathrooms,
             edgeHigh.stories, App.yesVal edgeHigh.mainroad,
             App.yesVal edgeHigh.guestroom, App.yesVal edgeHigh.basement,
             App.yesVal edgeHigh.hotwaterheating,
             App.yesVal edgeHigh.airconditioning, edgeHigh.parking,
             App.yesVal edgeHigh.prefarea, fv]) :=
  ⟨⟨by decide, c1_encode_twelve edgeLow (by decide)⟩,
   ⟨by decide, c1_encode_twelve edgeHigh (by decide)⟩⟩

/-- Claim C2: the worked example input encodes to exactly
[7000,4,3,3,1,1,1,1,1,2,1,2], and with a stub model whose predict returns a
fixed value for any input, the pipeline renders that fixed value formatted
as currency. -/
theorem c2_example_pipeline :
    App.input_features exInput = some [7000, 4, 3, 3, 1, 1, 1, 1, 1, 2, 1, 2] ∧
    App.handle_click (some (stubModel 4766729)) exInput =
      Except.ok (Rendered.predictionBox (formatCurrency 4766729), 1) ∧
    formatCurrency 4766729 = "$4,766,729.00" :=
  ⟨by decide, rfl, by decide⟩

/-- Claim C3: on valid inputs each Yes/No field encodes to 0 or 1 (1 exactly
when Yes) and the furnishing string encodes via the ordinal map unfurnished
to 0, semi-furnished to 1, furnished to 2. -/
theorem c3_bool_and_ordinal (s t : String) (hs : validBool s)
    (ht : validFurnishing t) :
    ((s = "No" ∧ App.yesVal s = 0) ∨ (s = "Yes" ∧ App.yesVal s = 1)) ∧
    ∃ fv, App.furnishing_map t = some fv ∧
      ((t = "unfurnished" ∧ fv = 0) ∨ (t = "semi-furnished" ∧ fv = 1) ∨
       (t = "furnished" ∧ fv = 2)) := by
  constructor
  · rcases hs with h | h <;> subst h
    · exact Or.inl ⟨rfl, by decide⟩
    · exact Or.inr ⟨rfl, by decide⟩
  · rcases ht with h | h | h <;> subst h
    · exact ⟨0, by decide, Or.inl ⟨rfl, rfl⟩⟩
    · exact ⟨1, by decide, Or.inr (Or.inl ⟨rfl, rfl⟩)⟩
    · exact ⟨2, by decide, Or.inr (Or.inr ⟨rfl, rfl⟩)⟩

/-- Witness for C3 at s = Yes and t = semi-furnished. -/
theorem c3_bool_and_ordinal_witness :
    validBool "Yes" ∧ validFurnishing "semi-furnished" ∧
    ((("Yes" : String) = "No" ∧ App.yesVal "Yes" = 0) ∨
      (("Yes" : String) = "Yes" ∧ App.yesVal "Yes" = 1)) ∧
    ∃ fv, App.furnishing_map "semi-furnished" = some fv ∧
      ((("semi-furnished" : String) = "unfurnished" ∧ fv = 0) ∨
       (("semi-furnished" : String) = "semi-furnished" ∧ fv = 1) ∨
       (("semi-furnished" : String) = "furnished" ∧ fv = 2)) :=
  ⟨by decide, by decide,
   c3_bool_and_ordinal "Yes" "semi-furnished" (by decide) (by decide)⟩

/-- Claim C4: after the artifact-not-found load failure the service holds no
model and shows a banner; every later predict click performs zero model
inference invocations and renders an error box. -/
theorem c4_failed_load_no_inference (h : HouseInput) (hv : validInput h) :
    load_model LoadOutcome.fileNotFound =
      Except.ok (none, ["Model file Housing.pkl not found."]) ∧
    App.handle_click none h =
      Except.ok
        (Rendered.errorBox
          "Error making prediction: NoneType object has no attribute predict",
         0) := by
  refine ⟨rfl, ?_⟩
  obtain ⟨fv, hfv, -⟩ := furnishing_map_of_valid (validInput_furnishing hv)
  have hf : App.input_features h = some
      [h.area, h.bedrooms, h.bathrooms, h.stories, App.yesVal h.mainroad,
       App.yesVal h.guestroom, App.yesVal h.basement,
       App.yesVal h.hotwaterheating, App.yesVal h.airconditioning,
       h.parking, App.yesVal h.prefarea, fv] := by
    simp [App.input_features, hfv]
  unfold App.handle_click
  rw [hf]
  rfl

/-- Witness for C4 at the worked example input. -/
theorem c4_failed_load_no_inference_witness :
    validInput exInput ∧
    (load_model LoadOutcome.fileNotFound =
      Except.ok (none, ["Model file Housing.pkl not found."]) ∧
    App.handle_click none exInput =
      Except.ok
        (Rendered.errorBox
          "Error making prediction: NoneType object has no attribute predict",
         0)) :=
  ⟨by decide, c4_failed_load_no_inference exInput (by decide)⟩

/-- Claim C5 counterexample: a deserialization failure on an existing
artifact file is not caught by load_model, which handles only the missing
file case; the exception escapes instead of the degraded-mode continuation
the claim describes for both failures. -/
theorem c5_corrupt_not_degraded :
    load_model (LoadOutcome.corruptFile "UnpicklingError: invalid load key") =
      Except.error "UnpicklingError: invalid load key" ∧
    isDegradedContinue
      (load_model (LoadOutcome.corruptFile "UnpicklingError: invalid load key")) =
      false :=
  ⟨rfl, rfl⟩

/-- Claim C5 (amended): when the artifact file is missing, load returns no
model together with a visible banner and the app continues degraded; when
deserialization of an existing file fails, the exception is not caught by
load_model and propagates out of it. -/
theorem c5_load_error_handling (m : PriceModel) (e : String) :
    load_model LoadOutcome.fileNotFound =
      Except.ok (none, ["Model file Housing.pkl not found."]) ∧
    isDegradedContinue (load_model LoadOutcome.fileNotFound) = true ∧
    load_model (LoadOutcome.success m) = Except.ok (some m, []) ∧
    load_model (LoadOutcome.corruptFile e) = Except.error e :=
  ⟨rfl, rfl, rfl, rfl⟩

/-- Claim C6: any failure raised by the model inference during predict is
caught per request and rendered as a visible error message; the click
handler returns normally rather than propagating the exception. -/
theorem c6_inference_error_caught (m : PriceModel) (h : HouseInput)
    (feats : List Int) (e : String)
    (hf : App.input_features h = some feats)
    (hp : m.predict [feats] = Except.error e) :
    App.handle_click (some m) h =
      Except.ok (Rendered.errorBox ("Error making prediction: " ++ e), 1) := by
  unfold App.handle_click
  rw [hf]
  show Except.ok (render_result (m.predict [feats]), 1) = _
  rw [hp]
  rfl

/-- Witness for C6: a model whose inference raises a shape mismatch at the
worked example input. -/
theorem c6_inference_error_caught_witness :
    App.input_features exInput = some [7000, 4, 3, 3, 1, 1, 1, 1, 1, 2, 1, 2] ∧
    failModel.predict [[7000, 4, 3, 3, 1, 1, 1, 1, 1, 2, 1, 2]] =
      Except.error "ValueError: shape mismatch" ∧
    App.handle_click (some failModel) exInput =
      Except.ok
        (Rendered.errorBox ("Error making prediction: " ++ "ValueError: shape mismatch"),
         1) :=
  ⟨by decide, rfl,
   c6_inference_error_caught failModel exInput
     [7000, 4, 3, 3, 1, 1, 1, 1, 1, 2, 1, 2] "ValueError: shape mismatch"
     (by decide) rfl⟩

/-- Claim C7: the encoder is a pure function of its input in both files:
encoding identical inputs, any number of times, yields identical vectors. -/
theorem c7_encode_deterministic (h₁ h₂ : HouseInput) (he : h₁ = h₂) :
    App.input_features h₁ = App.input_features h₂ ∧
    Test.input_features h₁ = Test.input_features h₂ := by
  subst he
  exact ⟨rfl, rfl⟩

/-- Witness for C7 at the worked example input. -/
theorem c7_encode_deterministic_witness :
    App.input_features exInput = App.input_features exInput ∧
    Test.input_features exInput = Test.input_features exInput :=
  c7_encode_deterministic exInput exInput rfl

/-- Claim C8: a successful prediction renders exactly the first element of
the length-1 predict result, formatted as currency with exactly two decimal
digits after the point. -/
theorem c8_display_first_formatted (m : PriceModel) (h : HouseInput)
    (feats : List Int) (v : Rat)
    (hf : App.input_features h = some feats)
    (hp : m.predict [feats] = Except.ok [v]) :
    App.handle_click (some m) h =
      Except.ok (Rendered.predictionBox (formatCurrency v), 1) ∧
    ∃ s d, formatCurrency v = s ++ "." ++ d ∧ d.length = 2 ∧
      d.data.all Char.isDigit = true := by
  constructor
  · unfold App.handle_click
    rw [hf]
    show Except.ok (render_result (m.predict [feats]), 1) = _
    rw [hp]
    rfl
  · exact formatCurrency_two_decimals v

/-- Witness for C8: the stub model at the worked example input. -/
theorem c8_display_first_formatted_witness :
    App.handle_click (some (stubModel 5339725)) exInput =
      Except.ok (Rendered.predictionBox (formatCurrency 5339725), 1) ∧
    ∃ s d, formatCurrency 5339725 = s ++ "." ++ d ∧ d.length = 2 ∧
      d.data.all Char.isDigit = true :=
  c8_display_first_formatted (stubModel 5339725) exInput
    [7000, 4, 3, 3, 1, 1, 1, 1, 1, 2, 1, 2] 5339725 (by decide) rfl

/-- Claim C9: the two files implement the same core: on every input the two
encoders agree, and both wrap the result as the same single-row batch for
model.predict. -/
theorem c9_app_test_same_core (h : HouseInput) :
    App.input_features h = Test.input_features h ∧
    App.batch h = Test.batch h :=
  ⟨rfl, rfl⟩

/-- Claim C10: a furnishing string outside the three dict keys makes the
encoding fail with KeyError before the prediction try block is entered, in
both files; the click handler therefore ends in an uncaught exception, not
in the caught per-request prediction error box. -/
theorem c10_bad_furnishing_uncaught (model : Option PriceModel)
    (h : HouseInput) (hb : ¬ validFurnishing h.furnishingstatus) :
    App.input_features h = none ∧ Test.input_features h = none ∧
    App.handle_click model h =
      Except.error ("KeyError: " ++ h.furnishingstatus) ∧
    Test.handle_click model h =
      Except.error ("KeyError: " ++ h.furnishingstatus) := by
  have hnots := not_or.mp hb
  have h1 := hnots.1
  have hnots2 := not_or.mp hnots.2
  have h2 := hnots2.1
  have h3 := hnots2.2
  have hm : App.furnishing_map h.furnishingstatus = none := by
    simp [App.furnishing_map, h1, h2, h3]
  have hf : App.input_features h = none := by
    simp [App.input_features, hm]
  refine ⟨hf, hf, ?_, ?_⟩
  · unfold App.handle_click
    rw [hf]
  · unfold Test.handle_click
    rw [show Test.input_features h = none from hf]

/-- Witness for C10 at a furnishing string outside the dict keys. -/
theorem c10_bad_furnishing_uncaught_witness :
    ¬ validFurnishing badFurnishInput.furnishingstatus ∧
    (App.input_features badFurnishInput = none ∧
     Test.input_features badFurnishInput = none ∧
     App.handle_click none badFurnishInput =
       Except.error ("KeyError: " ++ badFurnishInput.furnishingstatus) ∧
     Test.handle_click none badFurnishInput =
       Except.error ("KeyError: " ++ badFurnishInput.furnishingstatus)) :=
  ⟨by decide, c10_bad_furnishing_uncaught none badFurnishInput (by decide)⟩
